import Mathlib

/-
Shallow embedding of the momentum-screener refresh pipeline (Go sources:
internal/fetch/alphavantage.go, internal/fetch/scheduler.go, the rate
limiter, internal/analytics/orchestrator.go, internal/analytics/scoring.go,
internal/db/migrations.go, and the CLI runRefresh driver).

Modelling conventions:
- IEEE-754 float64 arithmetic is modelled by exact arithmetic in ℚ.
  math.Abs is modelled by mathAbs; math.Log and math.Sqrt are external
  library functions, so the functions that call them take parameters
  logQ sqrtQ : ℚ → ℚ (concrete instantiations in closed theorems only
  evaluate them at arguments where the float result is exact, e.g.
  math.Sqrt(0) = 0).
- time.Time is modelled as minutes since an epoch (a natural number);
  24*time.Hour is 1440 minutes.  Durations relevant to the claims are
  whole minutes, so Go's int(d.Hours()) and int(d.Minutes())%60 become
  exact natural division and remainder.
- Go slices become lists, Go maps for the lookback/volatility windows
  become structures with the exact keys used by the callers, and
  fallible Go functions returning (T, error) become Except values.
- Go sort.Slice / sort.SliceStable with a comparator `less` are modelled
  by List.insertionSort with the reflexive relation (fun a b => ¬less b a):
  on slices shorter than 12 elements Go runs plain insertion sort, which
  agrees with this model; every concrete input evaluated in a theorem
  below is that short.
-/

namespace Momo

/-! ## Rate limiter (the quota gate)

Source: the `RateLimiter` type with `Wait`, `RecordRequest`, `GetStatus`,
`Reset` (package fetch). -/

/-- Minutes in 24 hours, modelling `24 * time.Hour`. -/
def minutesPerDay : ℕ := 1440

/-- State of the quota gate: `(dailyLimit, requestCount, lastResetTime)`. -/
structure RateLimiter where
  dailyLimit : ℕ
  requestCount : ℕ
  lastResetTime : ℕ
deriving DecidableEq

/-- `NewRateLimiter`: zero count, last reset stamped now. -/
def newRateLimiter (limit now : ℕ) : RateLimiter :=
  ⟨limit, 0, now⟩

/-- The internal `reset` helper: clear the count, stamp the reset time. -/
def resetRL (now : ℕ) (rl : RateLimiter) : RateLimiter :=
  { rl with requestCount := 0, lastResetTime := now }

/-- The quota-exceeded message built by `Wait` via fmt.Errorf. -/
def quotaMessage (count limit hours minutes : ℕ) : String :=
  ("daily API quota exceeded (") ++ toString count ++ ("/") ++ toString limit ++
  (" requests used). Quota resets in ") ++ toString hours ++ ("h") ++
  toString minutes ++
  ("m. Consider: (1) waiting for reset, (2) using CSV import for historical data, or (3) upgrading to a paid API plan")

/-- `Wait`: auto-reset if 24 hours have elapsed, then fail with the quota
message when `requestCount >= dailyLimit`, else succeed.  Returns the
updated state and the error message, if any. -/
def wait (now : ℕ) (rl : RateLimiter) : RateLimiter × Option String :=
  let rl1 := if minutesPerDay ≤ now - rl.lastResetTime then resetRL now rl else rl
  if rl1.dailyLimit ≤ rl1.requestCount then
    let untilReset := minutesPerDay - (now - rl1.lastResetTime)
    (rl1, some (quotaMessage rl1.requestCount rl1.dailyLimit
      (untilReset / 60) (untilReset % 60)))
  else
    (rl1, none)

/-- `RecordRequest`: increment the counter. -/
def recordRequest (rl : RateLimiter) : RateLimiter :=
  { rl with requestCount := rl.requestCount + 1 }

/-- Snapshot returned by `GetStatus`.  `requestsLeft` is an integer because
the Go code computes `dailyLimit - requestCount` in int and clamps at 0. -/
structure RateLimiterStatus where
  dailyLimit : ℕ
  requestsUsed : ℕ
  requestsLeft : ℤ
  lastResetTime : ℕ
  nextResetTime : ℕ
deriving DecidableEq

/-- `GetStatus`: left = limit - used, clamped below at 0. -/
def getStatus (rl : RateLimiter) : RateLimiterStatus :=
  { dailyLimit := rl.dailyLimit
    requestsUsed := rl.requestCount
    requestsLeft := max 0 ((rl.dailyLimit : ℤ) - (rl.requestCount : ℤ))
    lastResetTime := rl.lastResetTime
    nextResetTime := rl.lastResetTime + minutesPerDay }

/-- One operation on the quota gate, with the wall-clock minute at which it
runs where relevant. -/
inductive QuotaOp where
  | waitOp (now : ℕ)
  | recordOp
  | statusOp
  | resetOp (now : ℕ)
deriving DecidableEq

/-- State transition of a single quota-gate operation (`status()` reads
without writing). -/
def applyQuotaOp (rl : RateLimiter) : QuotaOp → RateLimiter
  | .waitOp now => (wait now rl).1
  | .recordOp => recordRequest rl
  | .statusOp => rl
  | .resetOp now => resetRL now rl

/-- Run a sequence of quota-gate operations. -/
def runQuotaOps (rl : RateLimiter) (ops : List QuotaOp) : RateLimiter :=
  ops.foldl applyQuotaOp rl

/-- Operations of the protocol-respecting client (`FetchDailyAdjusted`):
`record()` happens only inside a fetch cycle whose `check()` succeeded, and
only when a response was obtained (`sent = true`). -/
inductive GuardedOp where
  | fetchCycle (now : ℕ) (sent : Bool)
  | waitOnly (now : ℕ)
  | statusOnly
  | adminReset (now : ℕ)
deriving DecidableEq

/-- State transition for protocol-respecting operation sequences. -/
def applyGuardedOp (rl : RateLimiter) : GuardedOp → RateLimiter
  | .fetchCycle now sent =>
      match wait now rl with
      | (rl1, none) => if sent then recordRequest rl1 else rl1
      | (rl1, some _) => rl1
  | .waitOnly now => (wait now rl).1
  | .statusOnly => rl
  | .adminReset now => resetRL now rl

/-- Run a protocol-respecting sequence of quota-gate operations. -/
def runGuardedOps (rl : RateLimiter) (ops : List GuardedOp) : RateLimiter :=
  ops.foldl applyGuardedOp rl

/-! ## Price bars and the indicator calculator

Source: `PriceBar`, `CalculateReturns`, `calculateReturn`,
`CalculateVolatility`, `CalculateADV`, `CheckBreadthFilter`,
`ComputeIndicators` (package analytics), and the row loader
`fetchPricesForSymbol` (orchestrator). -/

/-- One daily bar as used by the calculator.  Dates are days since an
epoch; ISO `yyyy-mm-dd` strings compare the same way. -/
structure PriceBar where
  date : ℕ
  openPrice : ℚ
  high : ℚ
  low : ℚ
  close : ℚ
  adjClose : ℚ
  volume : ℚ
deriving DecidableEq

/-- Placeholder bar for out-of-range indexing (never reached on the
guarded paths below). -/
def dummyBar : PriceBar :=
  ⟨0, 0, 0, 0, 0, 0, 0⟩

/-- Date order used by every `sort.Slice(..., Date.Before)` call. -/
def dateLe (a b : PriceBar) : Prop :=
  a.date ≤ b.date

instance : DecidableRel dateLe := fun a b =>
  inferInstanceAs (Decidable (a.date ≤ b.date))

instance : IsTotal PriceBar dateLe :=
  ⟨fun a b => Nat.le_total a.date b.date⟩

instance : IsTrans PriceBar dateLe :=
  ⟨fun _ _ _ h1 h2 => Nat.le_trans h1 h2⟩

/-- `sort.Slice(prices, less = Date.Before)` as run by the calculator. -/
def sortByDate (l : List PriceBar) : List PriceBar :=
  List.insertionSort dateLe l

/-- Error kinds produced by the calculator (the Go code uses message
strings; these constructors carry the same information). -/
inductive CalcError where
  | noData
  | insufficientData (needed got : ℕ)
  | zeroPastPrice
  | zeroPrice
deriving DecidableEq

/-- `calculateReturn`: total return over one lookback, given the sorted
series and the current (latest) adjusted close. -/
def calculateReturn (prices : List PriceBar) (currentPrice : ℚ)
    (lookback : ℕ) : Except CalcError ℚ :=
  if prices.length < lookback + 1 then
    .error (.insufficientData (lookback + 1) prices.length)
  else
    let pastPrice := (prices.getD (prices.length - 1 - lookback) dummyBar).adjClose
    if pastPrice = 0 then .error .zeroPastPrice
    else .ok (currentPrice / pastPrice - 1)

/-- Configured lookback windows; the Go map always carries exactly these
keys. -/
structure Lookbacks where
  r1m : ℕ
  r3m : ℕ
  r6m : ℕ
  r12m : ℕ
deriving DecidableEq

/-- Configured volatility windows. -/
structure VolWindows where
  short : ℕ
  long : ℕ
deriving DecidableEq

/-- `CalculateReturns`: sort by date, take the last adjusted close as the
current price, and compute the four lookback returns. -/
def calculateReturns (prices : List PriceBar) (lb : Lookbacks) :
    Except CalcError (ℚ × ℚ × ℚ × ℚ) :=
  if prices.length = 0 then .error .noData
  else
    let sorted := sortByDate prices
    let currentPrice := (sorted.getD (sorted.length - 1) dummyBar).adjClose
    do
      let r1m ← calculateReturn sorted currentPrice lb.r1m
      let r3m ← calculateReturn sorted currentPrice lb.r3m
      let r6m ← calculateReturn sorted currentPrice lb.r6m
      let r12m ← calculateReturn sorted currentPrice lb.r12m
      pure (r1m, r3m, r6m, r12m)

/-- Daily log returns of consecutive bars, failing on a zero adjusted
close, with the log function passed in (models math.Log). -/
def dailyLogReturns (logQ : ℚ → ℚ) : List PriceBar → Except CalcError (List ℚ)
  | [] => .ok []
  | [_] => .ok []
  | a :: b :: t =>
    if a.adjClose = 0 ∨ b.adjClose = 0 then .error .zeroPrice
    else do
      let rest ← dailyLogReturns logQ (b :: t)
      pure (logQ (b.adjClose / a.adjClose) :: rest)

/-- Arithmetic mean (Go: sum then divide; division by a zero length is
never reached on the guarded paths). -/
def listMean (l : List ℚ) : ℚ :=
  l.sum / (l.length : ℚ)

/-- Population variance around the mean (divide by n, not n-1). -/
def listPopVariance (l : List ℚ) : ℚ :=
  (l.map (fun v => (v - listMean l) * (v - listMean l))).sum / (l.length : ℚ)

/-- `CalculateVolatility`: annualized population standard deviation of the
trailing `window` daily log returns. -/
def calculateVolatility (logQ sqrtQ : ℚ → ℚ) (prices : List PriceBar)
    (window : ℕ) : Except CalcError ℚ :=
  if prices.length < window + 1 then
    .error (.insufficientData (window + 1) prices.length)
  else
    let sorted := sortByDate prices
    let tail := sorted.drop (sorted.length - window - 1)
    do
      let logReturns ← dailyLogReturns logQ tail
      let dailyVol := sqrtQ (listPopVariance logReturns)
      pure (dailyVol * sqrtQ 252)

/-- `CalculateADV`: mean of close times volume over the trailing window. -/
def calculateADV (prices : List PriceBar) (window : ℕ) :
    Except CalcError ℚ :=
  if prices.length < window then
    .error (.insufficientData window prices.length)
  else
    let sorted := sortByDate prices
    let tail := sorted.drop (sorted.length - window)
    .ok ((tail.map (fun p => p.close * p.volume)).sum / (window : ℚ))

/-- `CheckBreadthFilter`: true iff the input is non-empty and at least
`minPositive` entries are strictly positive. -/
def checkBreadthFilter (returns : List ℚ) (minPositive : ℕ) : Bool :=
  if returns.isEmpty then false
  else decide (minPositive ≤ returns.countP (fun r => decide (0 < r)))

/-- Indicator row as produced by the calculator (score and rank are
populated later by the scorer). -/
structure Indicators where
  symbol : String
  date : ℕ
  r1m : ℚ
  r3m : ℚ
  r6m : ℚ
  r12m : ℚ
  vol3m : ℚ
  vol6m : ℚ
  adv : ℚ
  score : ℚ
  rank : ℕ
deriving DecidableEq

/-- Body of `ComputeIndicators` applied to the date-sorted series. -/
def computeIndicatorsSorted (logQ sqrtQ : ℚ → ℚ) (lb : Lookbacks)
    (vw : VolWindows) (symbol : String) (sorted : List PriceBar) :
    Except CalcError Indicators :=
  let latestDate := (sorted.getD (sorted.length - 1) dummyBar).date
  do
    let (r1m, r3m, r6m, r12m) ← calculateReturns sorted lb
    let vol3m ← calculateVolatility logQ sqrtQ sorted vw.short
    let vol6m ← calculateVolatility logQ sqrtQ sorted vw.long
    let adv ← calculateADV sorted vw.short
    pure ⟨symbol, latestDate, r1m, r3m, r6m, r12m, vol3m, vol6m, adv, 0, 0⟩

/-- `ComputeIndicators`: reject an empty series, sort by date, and compute
every indicator for the latest date of the sorted series. -/
def computeIndicators (logQ sqrtQ : ℚ → ℚ) (lb : Lookbacks)
    (vw : VolWindows) (symbol : String) (prices : List PriceBar) :
    Except CalcError Indicators :=
  if prices.length = 0 then .error .noData
  else computeIndicatorsSorted logQ sqrtQ lb vw symbol (sortByDate prices)

/-- One raw price row as read back from the store (`adj_close` and
`volume` are nullable). -/
structure PriceRow where
  date : ℕ
  openPrice : ℚ
  high : ℚ
  low : ℚ
  close : ℚ
  adjClose : Option ℚ
  volume : Option ℤ
deriving DecidableEq

/-- The row loader inside `fetchPricesForSymbol`: a NULL `adj_close`
falls back to `close`; a NULL `volume` stays at the zero value. -/
def loadPriceBar (r : PriceRow) : PriceBar :=
  { date := r.date
    openPrice := r.openPrice
    high := r.high
    low := r.low
    close := r.close
    adjClose := r.adjClose.getD r.close
    volume := (r.volume.getD 0 : ℤ) }

/-! ## Scorer

Source: `ScoringConfig`, `ComputeScore`, `ZScoreNormalize`,
`ScoreAndRank`, `compareSymbolScores` (package analytics). -/

/-- Scoring parameters. -/
structure ScoringConfig where
  penaltyLambda : ℚ
  minADV : ℚ
  breadthMinPositive : ℕ
  breadthTotal : ℕ
deriving DecidableEq

/-- `math.Abs`. -/
def mathAbs (q : ℚ) : ℚ :=
  if q < 0 then -q else q

/-- The 1e-10 tie tolerance used by `compareSymbolScores`. -/
def epsTie : ℚ :=
  1 / 10000000000

/-- Byte-wise lexicographic order on character lists. -/
def lexLt : List Char → List Char → Bool
  | [], [] => false
  | [], _ :: _ => true
  | _ :: _, [] => false
  | a :: as, b :: bs =>
    if a.toNat < b.toNat then true
    else if b.toNat < a.toNat then false
    else lexLt as bs

/-- Go's `<` on strings (lexicographic; ticker symbols are ASCII, where
byte order and code-point order coincide). -/
def goStringLt (a b : String) : Bool :=
  lexLt a.data b.data

/-- `ComputeScore`: mean of the four horizon returns minus the volatility
penalty. -/
def computeScore (ind : Indicators) (penaltyLambda : ℚ) : ℚ :=
  (ind.r1m + ind.r3m + ind.r6m + ind.r12m) / 4 - penaltyLambda * ind.vol6m

/-- `ZScoreNormalize`: z-score normalization with population standard
deviation, returning all zeros when the deviation is zero. -/
def zScoreNormalize (sqrtQ : ℚ → ℚ) (values : List ℚ) :
    Except String (List ℚ) :=
  if values.length = 0 then .error ("cannot normalize empty slice")
  else if values.length = 1 then .ok [0]
  else if sqrtQ (listPopVariance values) = 0 then
    .ok (values.map (fun _ => 0))
  else
    .ok (values.map (fun v =>
      (v - listMean values) / sqrtQ (listPopVariance values)))

/-- A scored symbol. -/
structure SymbolScore where
  symbol : String
  score : ℚ
  volatility : ℚ
  liquidity : ℚ
  indicators : Indicators
deriving DecidableEq

/-- `compareSymbolScores a b`: true when `a` sorts strictly before `b`.
Every level treats an absolute difference of at most 1e-10 as a tie. -/
def compareSymbolScores (a b : SymbolScore) : Bool :=
  if epsTie < mathAbs (a.score - b.score) then decide (b.score < a.score)
  else if epsTie < mathAbs (a.volatility - b.volatility) then
    decide (a.volatility < b.volatility)
  else if epsTie < mathAbs (a.liquidity - b.liquidity) then
    decide (b.liquidity < a.liquidity)
  else goStringLt a.symbol b.symbol

/-- Comparator written from the spec sentence for the refinement check of
claim C4: the 1e-10 tolerance is stated for the score level only, so the
vol_6m and adv levels compare exactly. -/
def compareSymbolScoresSpec (a b : SymbolScore) : Bool :=
  if epsTie < mathAbs (a.score - b.score) then decide (b.score < a.score)
  else if a.volatility ≠ b.volatility then
    decide (a.volatility < b.volatility)
  else if a.liquidity ≠ b.liquidity then
    decide (b.liquidity < a.liquidity)
  else goStringLt a.symbol b.symbol

/-- Reflexive order fed to the stable sort: `a` may stay before `b` iff
`b` does not sort strictly before `a`. -/
def scoreLe (a b : SymbolScore) : Prop :=
  compareSymbolScores b a = false

instance : DecidableRel scoreLe := fun a b =>
  inferInstanceAs (Decidable (compareSymbolScores b a = false))

/-- Spec-side counterpart of `scoreLe` for the C4 refinement check. -/
def scoreLeSpec (a b : SymbolScore) : Prop :=
  compareSymbolScoresSpec b a = false

instance : DecidableRel scoreLeSpec := fun a b =>
  inferInstanceAs (Decidable (compareSymbolScoresSpec b a = false))

/-- Survivor predicate of `ScoreAndRank`: pass the breadth filter on the
four horizon returns and have adv at least the configured floor. -/
def passesFilters (cfg : ScoringConfig) (ind : Indicators) : Bool :=
  checkBreadthFilter [ind.r1m, ind.r3m, ind.r6m, ind.r12m]
    cfg.breadthMinPositive && decide (cfg.minADV ≤ ind.adv)

/-- The rank-assignment loop: position i gets rank i+1, and the indicator
row's score is overwritten with the normalized score. -/
def assignRanks : ℕ → List SymbolScore → List SymbolScore
  | _, [] => []
  | n, ss :: t =>
    { ss with indicators := { ss.indicators with rank := n, score := ss.score } }
      :: assignRanks (n + 1) t

/-- Build the SymbolScore records from the survivors and their normalized
scores (the Go loop indexes both slices in lockstep). -/
def buildSymbolScores (filtered : List Indicators) (normalized : List ℚ) :
    List SymbolScore :=
  List.zipWith
    (fun ind ns => ⟨ind.symbol, ns, ind.vol6m, ind.adv, ind⟩)
    filtered normalized

/-- `ScoreAndRank`: filter, score, normalize, stable-sort by the
comparator, assign ranks 1..N. -/
def scoreAndRank (sqrtQ : ℚ → ℚ) (cfg : ScoringConfig)
    (indicatorsList : List Indicators) : Except String (List SymbolScore) :=
  if indicatorsList.isEmpty then .error ("no indicators provided")
  else if (indicatorsList.filter (passesFilters cfg)).isEmpty then
    .error ("no symbols passed filtering criteria")
  else
    match zScoreNormalize sqrtQ
        ((indicatorsList.filter (passesFilters cfg)).map
          (fun ind => computeScore ind cfg.penaltyLambda)) with
    | .error e => .error (("failed to normalize scores: ") ++ e)
    | .ok normalized =>
      .ok (assignRanks 1 (List.insertionSort scoreLe
        (buildSymbolScores (indicatorsList.filter (passesFilters cfg))
          normalized)))

/-- The same pipeline sorted by the spec-worded comparator, for the C4
refinement check. -/
def scoreAndRankSpec (sqrtQ : ℚ → ℚ) (cfg : ScoringConfig)
    (indicatorsList : List Indicators) : Except String (List SymbolScore) :=
  if indicatorsList.isEmpty then .error ("no indicators provided")
  else if (indicatorsList.filter (passesFilters cfg)).isEmpty then
    .error ("no symbols passed filtering criteria")
  else
    match zScoreNormalize sqrtQ
        ((indicatorsList.filter (passesFilters cfg)).map
          (fun ind => computeScore ind cfg.penaltyLambda)) with
    | .error e => .error (("failed to normalize scores: ") ++ e)
    | .ok normalized =>
      .ok (assignRanks 1 (List.insertionSort scoreLeSpec
        (buildSymbolScores (indicatorsList.filter (passesFilters cfg))
          normalized)))

/-! ## Refresh pipeline models

Source: `runRefresh` (CLI driver), `ComputeAllIndicators` (orchestrator),
`FetchDailyAdjusted` (provider client), `fetchSymbol` (scheduler). -/

/-- Per-symbol outcome emitted by the fetch scheduler. -/
structure FetchResult where
  symbol : String
  success : Bool
deriving DecidableEq

/-- Provider-client invocations issued during one refresh, in order: the
scheduler invokes the client once per task (`fetchSymbol` calls
`FetchDaily`), then the persistence loop in `runRefresh` invokes
`FetchDailyAdjusted` once more for every successful result. -/
def runRefreshProviderCalls (results : List FetchResult) : List String :=
  results.map (fun r => r.symbol) ++
    (results.filter (fun r => r.success)).map (fun r => r.symbol)

/-- Number of provider-client invocations for one symbol in one refresh. -/
def providerCallsFor (results : List FetchResult) (sym : String) : ℕ :=
  (runRefreshProviderCalls results).count sym

/-- Outcome of the HTTP layer as seen by `FetchDailyAdjusted` after the
retrying `Do` call: either no response was obtained (transport failure
after the retry budget) or a response arrived with a status code and a
body. -/
inductive HttpOutcome where
  | transportFailure
  | response (status : ℕ) (decodeOk : Bool) (errorMessage note : String)
      (seriesLen : ℕ)
deriving DecidableEq

/-- Errors surfaced by `FetchDailyAdjusted`. -/
inductive FetchError where
  | rateLimited (msg : String)
  | transport
  | httpStatus (status : ℕ)
  | decodeFailed
  | providerError
  | providerNote
  | emptyResponse
deriving DecidableEq

/-- `FetchDailyAdjusted` control flow: quota check, send, then — only
when a response was obtained — record the request, check the status code,
decode, and check the in-body error, note and emptiness fields.  Returns
the quota state after the call and the result. -/
def fetchDailyAdjusted (now : ℕ) (rl : RateLimiter) (outcome : HttpOutcome) :
    RateLimiter × Except FetchError Unit :=
  match wait now rl with
  | (rl1, some msg) => (rl1, .error (.rateLimited msg))
  | (rl1, none) =>
    match outcome with
    | .transportFailure => (rl1, .error .transport)
    | .response status decodeOk errorMessage note seriesLen =>
      let rl2 := recordRequest rl1
      if status ≠ 200 then (rl2, .error (.httpStatus status))
      else if decodeOk = false then (rl2, .error .decodeFailed)
      else if errorMessage ≠ "" then (rl2, .error .providerError)
      else if note ≠ "" then (rl2, .error .providerNote)
      else if seriesLen = 0 then (rl2, .error .emptyResponse)
      else (rl2, .ok ())

/-- `ComputeAllIndicators` from the computed indicator list onward: an
empty list and a scorer failure both surface as errors to the caller;
otherwise the ranked rows are returned for persistence. -/
def computeAllIndicators (sqrtQ : ℚ → ℚ) (cfg : ScoringConfig)
    (indicatorsList : List Indicators) : Except String (List SymbolScore) :=
  if indicatorsList.isEmpty then .error ("no indicators could be computed")
  else
    match scoreAndRank sqrtQ cfg indicatorsList with
    | .error e => .error (("failed to score and rank: ") ++ e)
    | .ok ranked => .ok ranked

/-- How the refresh ends: `aborted` models `log.Fatalf` in `runRefresh`
(the process exits and the run row is never finished), `closed s` models
`runRepo.Finish(runID, s, ...)`. -/
inductive RefreshOutcome where
  | aborted
  | closed (status : String)
deriving DecidableEq

/-- The analytics tail of `runRefresh`: a failing `ComputeAllIndicators`
hits `log.Fatalf` and the run is never closed; on success the run closes
with OK when no fetch failed, ERROR otherwise.  Also returns the
indicator rows that were persisted. -/
def runRefreshAnalyticsPhase (sqrtQ : ℚ → ℚ) (cfg : ScoringConfig)
    (indicatorsList : List Indicators) (failureCount : ℕ) :
    RefreshOutcome × List SymbolScore :=
  match computeAllIndicators sqrtQ cfg indicatorsList with
  | .error _ => (.aborted, [])
  | .ok ranked =>
    (.closed (if 0 < failureCount then ("ERROR") else ("OK")), ranked)

/-! ## Batch upserts

Source: `PriceRepository.UpsertBatch` and `IndicatorRepository.UpsertBatch`
(package db). -/

/-- A row of the prices table. -/
structure Price where
  symbol : String
  date : ℕ
  openPrice : ℚ
  high : ℚ
  low : ℚ
  close : ℚ
  adjClose : Option ℚ
  volume : Option ℤ
deriving DecidableEq

/-- A row of the indicators table (nullable numeric columns). -/
structure DbIndicator where
  symbol : String
  date : ℕ
  r1m : Option ℚ
  r3m : Option ℚ
  r6m : Option ℚ
  r12m : Option ℚ
  vol3m : Option ℚ
  vol6m : Option ℚ
  adv : Option ℚ
  score : Option ℚ
  rank : Option ℕ
deriving DecidableEq

/-- `ON CONFLICT(symbol,date) DO UPDATE` for one price row: replace the
row with the same key in place, else append. -/
def upsertPriceRow (rows : List Price) (p : Price) : List Price :=
  if rows.any (fun r => r.symbol = p.symbol && r.date == p.date) then
    rows.map (fun r => if r.symbol = p.symbol ∧ r.date = p.date then p else r)
  else rows ++ [p]

/-- `ON CONFLICT(symbol,date) DO UPDATE` for one indicator row. -/
def upsertIndicatorRow (rows : List DbIndicator) (p : DbIndicator) :
    List DbIndicator :=
  if rows.any (fun r => r.symbol = p.symbol && r.date == p.date) then
    rows.map (fun r => if r.symbol = p.symbol ∧ r.date = p.date then p else r)
  else rows ++ [p]

/-- Result of a batch upsert: the table contents afterwards, whether a
transaction was begun, and success. -/
structure BatchOutcome (α : Type) where
  table : List α
  began : Bool
  ok : Bool
deriving DecidableEq

/-- `PriceRepository.UpsertBatch`: an empty batch returns nil before the
transaction is begun; otherwise every row is upserted inside one
transaction. -/
def priceUpsertBatch (rows : List Price) (batch : List Price) :
    BatchOutcome Price :=
  if batch.length = 0 then ⟨rows, false, true⟩
  else ⟨batch.foldl upsertPriceRow rows, true, true⟩

/-- `IndicatorRepository.UpsertBatch`: same shape as the price version. -/
def indicatorUpsertBatch (rows : List DbIndicator)
    (batch : List DbIndicator) : BatchOutcome DbIndicator :=
  if batch.length = 0 then ⟨rows, false, true⟩
  else ⟨batch.foldl upsertIndicatorRow rows, true, true⟩

/-! ## Auxiliary definitions used by the theorems -/

instance {ε α : Type _} [DecidableEq ε] [DecidableEq α] :
    DecidableEq (Except ε α) := fun x y =>
  match x, y with
  | .error a, .error b =>
    if h : a = b then .isTrue (by rw [h])
    else .isFalse (by simp [h])
  | .error _, .ok _ => .isFalse (by simp)
  | .ok _, .error _ => .isFalse (by simp)
  | .ok a, .ok b =>
    if h : a = b then .isTrue (by rw [h])
    else .isFalse (by simp [h])

/-- Strict date order, used to show the sorted order is unique when all
dates are distinct. -/
def dateLt (a b : PriceBar) : Prop :=
  a.date < b.date

instance : IsAntisymm PriceBar dateLt :=
  ⟨fun _ _ h1 h2 => absurd (Nat.lt_trans h1 h2) (Nat.lt_irrefl _)⟩

/-- The adjusted close `lookback` bars before the end of a series. -/
def pastAdjClose (prices : List PriceBar) (lookback : ℕ) : ℚ :=
  (prices.getD (prices.length - 1 - lookback) dummyBar).adjClose

/-- The adjusted close of the last bar of a series. -/
def lastAdjClose (prices : List PriceBar) : ℚ :=
  (prices.getD (prices.length - 1) dummyBar).adjClose

/-- One successful `check()+record()` cycle against the quota gate. -/
def checkRecordCycle (now : ℕ) (rl : RateLimiter) : RateLimiter :=
  recordRequest (wait now rl).1

/-- Stand-in for math.Sqrt and math.Log in concrete runs whose only
evaluation point is 0 (math.Sqrt(0) = 0 and the log factor is multiplied
by 0 on those runs). -/
def zeroFn : ℚ → ℚ := fun _ => 0

/-- Scoring configuration for the concrete scorer runs: no volatility
penalty, no liquidity floor, breadth threshold 1 of 4. -/
def tieCfg : ScoringConfig := ⟨0, 0, 1, 4⟩

/-- Indicator rows for the tie-break scenario: identical returns, vol_6m
and adv; only the symbols differ. -/
def indAAA : Indicators :=
  ⟨"AAA", 10, 1/10, 1/10, 1/10, 1/10, 1/10, 1/10, 1000000, 0, 0⟩

/-- The ZZZ twin of `indAAA`. -/
def indZZZ : Indicators := { indAAA with symbol := "ZZZ" }

/-- Indicator with the lower vol_6m (by 1e-11, inside the tie tolerance)
and the lower adv, for the C4 comparator-tolerance counterexample. -/
def indLowVol : Indicators :=
  ⟨"AAA", 10, 1/10, 1/10, 1/10, 1/10, 0, 0, 1000000, 0, 0⟩

/-- Indicator with vol_6m higher by exactly 1e-11 and a much higher adv. -/
def indHighAdv : Indicators :=
  ⟨"BBB", 10, 1/10, 1/10, 1/10, 1/10, 0, 1/100000000000, 2000000, 0, 0⟩

/-- Indicator whose four horizon returns are all negative, so the breadth
filter removes it. -/
def indAllNeg : Indicators :=
  ⟨"NEG", 10, -(1/10), -(1/10), -(1/10), -(1/10), 1/10, 1/10, 1000000, 0, 0⟩

/-- Unit lookbacks for the two-bar calculator runs. -/
def lbOne : Lookbacks := ⟨1, 1, 1, 1⟩

/-- Unit volatility windows for the two-bar calculator runs. -/
def vwOne : VolWindows := ⟨1, 1⟩

/-- Two bars sharing one date with different adjusted closes (duplicate
date, as fed to the calculator when the store was bypassed). -/
def barDup100 : PriceBar := ⟨1, 100, 100, 100, 100, 100, 10⟩

/-- The second bar of the duplicate-date pair. -/
def barDup200 : PriceBar := ⟨1, 200, 200, 200, 200, 200, 10⟩

/-- Two bars on distinct dates for the distinct-date witnesses. -/
def barDay1 : PriceBar := ⟨1, 100, 100, 100, 100, 100, 10⟩

/-- The second distinct-date bar. -/
def barDay2 : PriceBar := ⟨2, 200, 200, 200, 200, 200, 10⟩

/-- The scorer output on `[indAAA, indZZZ]` (normalized scores are 0 and
0, AAA first by the symbol tie-break). -/
def c4OutVal : List SymbolScore :=
  [⟨"AAA", 0, 1/10, 1000000, { indAAA with rank := 1 }⟩,
   ⟨"ZZZ", 0, 1/10, 1000000, { indZZZ with rank := 2 }⟩]

/-! ## Helper lemmas -/

theorem lexLt_asymm : ∀ as bs : List Char,
    lexLt as bs = true → lexLt bs as = false := by
  intro as
  induction as with
  | nil =>
    intro bs h
    cases bs with
    | nil => simp [lexLt] at h
    | cons b s => simp [lexLt]
  | cons a t ih =>
    intro bs h
    cases bs with
    | nil => simp [lexLt] at h
    | cons b s =>
      simp only [lexLt] at h ⊢
      by_cases h1 : a.toNat < b.toNat
      · rw [if_neg (by omega), if_pos h1]
      · by_cases h2 : b.toNat < a.toNat
        · rw [if_neg h1, if_pos h2] at h
          exact absurd h (by simp)
        · rw [if_neg h1, if_neg h2] at h
          rw [if_neg h2, if_neg h1]
          exact ih s h

theorem mathAbs_sub_comm (a b : ℚ) : mathAbs (a - b) = mathAbs (b - a) := by
  unfold mathAbs
  split_ifs with h1 h2 <;> linarith

theorem compareSymbolScores_asymm (a b : SymbolScore)
    (h : compareSymbolScores a b = true) :
    compareSymbolScores b a = false := by
  unfold compareSymbolScores at h ⊢
  rw [mathAbs_sub_comm b.score a.score,
    mathAbs_sub_comm b.volatility a.volatility,
    mathAbs_sub_comm b.liquidity a.liquidity]
  split_ifs at h ⊢ with h1 h2 h3
  · simp only [decide_eq_true_eq] at h
    exact decide_eq_false (lt_asymm h)
  · simp only [decide_eq_true_eq] at h
    exact decide_eq_false (lt_asymm h)
  · simp only [decide_eq_true_eq] at h
    exact decide_eq_false (lt_asymm h)
  · exact lexLt_asymm _ _ h

theorem scoreLe_total (a b : SymbolScore) : scoreLe a b ∨ scoreLe b a := by
  unfold scoreLe
  by_cases h : compareSymbolScores a b = true
  · exact Or.inl (compareSymbolScores_asymm a b h)
  · exact Or.inr (by simpa using h)

-- Inserting into a list with no adjacent out-of-order pair keeps that
-- property, for any total (not necessarily transitive) relation.
theorem chain'_orderedInsert {α : Type _} (r : α → α → Prop)
    [DecidableRel r] (total : ∀ a b, r a b ∨ r b a) (a : α) :
    ∀ l : List α, l.Chain' r → (List.orderedInsert r a l).Chain' r := by
  intro l
  induction l with
  | nil => intro _; simp
  | cons b t ih =>
    intro hc
    simp only [List.orderedInsert]
    split_ifs with hr
    · exact List.chain'_cons.mpr ⟨hr, hc⟩
    · have hra : r b a := (total a b).resolve_left hr
      have hrec := ih hc.tail
      cases t with
      | nil => simpa [List.orderedInsert] using hra
      | cons c u =>
        simp only [List.orderedInsert] at hrec ⊢
        split_ifs at hrec ⊢ with hac
        · exact List.chain'_cons.mpr ⟨hra, hrec⟩
        · exact List.chain'_cons.mpr ⟨(List.chain'_cons.mp hc).1, hrec⟩

theorem chain'_insertionSort {α : Type _} (r : α → α → Prop)
    [DecidableRel r] (total : ∀ a b, r a b ∨ r b a) :
    ∀ l : List α, (List.insertionSort r l).Chain' r := by
  intro l
  induction l with
  | nil => simp
  | cons a t ih =>
    simpa only [List.insertionSort] using
      chain'_orderedInsert r total a _ ih

theorem assignRanks_length : ∀ (n : ℕ) (l : List SymbolScore),
    (assignRanks n l).length = l.length := by
  intro n l
  induction l generalizing n with
  | nil => rfl
  | cons s t ih => simp [assignRanks, ih]

theorem assignRanks_map_rank : ∀ (n : ℕ) (l : List SymbolScore),
    (assignRanks n l).map (fun s => s.indicators.rank) =
      List.range' n l.length := by
  intro n l
  induction l generalizing n with
  | nil => rfl
  | cons s t ih => simp [assignRanks, ih, List.range'_succ]

-- The comparator never reads the indicators field, so rank assignment
-- preserves adjacent sortedness.
theorem chain'_assignRanks : ∀ (n : ℕ) (l : List SymbolScore),
    l.Chain' scoreLe → (assignRanks n l).Chain' scoreLe := by
  intro n l
  induction l generalizing n with
  | nil => intro _; simp [assignRanks]
  | cons x t ih =>
    intro hc
    cases t with
    | nil => simp [assignRanks]
    | cons y u =>
      simp only [assignRanks]
      refine List.chain'_cons.mpr ⟨?_, ?_⟩
      · exact (List.chain'_cons.mp hc).1
      · exact ih (n + 1) (List.chain'_cons.mp hc).2

theorem zScoreNormalize_length (sqrtQ : ℚ → ℚ) (values normalized : List ℚ)
    (h : zScoreNormalize sqrtQ values = .ok normalized) :
    normalized.length = values.length := by
  unfold zScoreNormalize at h
  split_ifs at h with h1 h2 h3
  · cases h
    simpa using h2.symm
  · cases h
    simp
  · cases h
    simp

theorem wait_fst_dailyLimit (now : ℕ) (rl : RateLimiter) :
    (wait now rl).1.dailyLimit = rl.dailyLimit := by
  simp only [wait]
  split_ifs <;> rfl

theorem wait_none_count_lt (now : ℕ) (rl : RateLimiter)
    (h : (wait now rl).2 = none) :
    (wait now rl).1.requestCount < (wait now rl).1.dailyLimit := by
  simp only [wait] at h ⊢
  split_ifs at h ⊢ with h1 h2 h3 <;> simp_all [resetRL]
  omega

theorem wait_fst_count_le (now : ℕ) (rl : RateLimiter)
    (h : rl.requestCount ≤ rl.dailyLimit) :
    (wait now rl).1.requestCount ≤ (wait now rl).1.dailyLimit := by
  simp only [wait]
  split_ifs <;> simp [resetRL, h]

theorem applyGuardedOp_dailyLimit (rl : RateLimiter) (op : GuardedOp) :
    (applyGuardedOp rl op).dailyLimit = rl.dailyLimit := by
  cases op with
  | fetchCycle now sent =>
    have h1 := wait_fst_dailyLimit now rl
    simp only [applyGuardedOp]
    rcases hw : wait now rl with ⟨rl1, e⟩
    rw [hw] at h1
    cases e with
    | none =>
      cases sent with
      | false => simpa using h1
      | true => simpa [recordRequest] using h1
    | some msg => simpa using h1
  | waitOnly now => exact wait_fst_dailyLimit now rl
  | statusOnly => rfl
  | adminReset now => rfl

theorem applyGuardedOp_count_le (rl : RateLimiter) (op : GuardedOp)
    (h : rl.requestCount ≤ rl.dailyLimit) :
    (applyGuardedOp rl op).requestCount ≤ (applyGuardedOp rl op).dailyLimit := by
  cases op with
  | fetchCycle now sent =>
    have hle := wait_fst_count_le now rl h
    simp only [applyGuardedOp]
    rcases hw : wait now rl with ⟨rl1, e⟩
    rw [hw] at hle
    cases e with
    | none =>
      have hlt : rl1.requestCount < rl1.dailyLimit := by
        have h2 := wait_none_count_lt now rl (by rw [hw])
        rw [hw] at h2
        exact h2
      cases sent with
      | false => simpa using hle
      | true => simpa [recordRequest] using hlt
    | some msg => simpa using hle
  | waitOnly now => exact wait_fst_count_le now rl h
  | statusOnly => exact h
  | adminReset now => exact Nat.zero_le _

theorem runGuardedOps_inv (ops : List GuardedOp) (rl : RateLimiter)
    (h : rl.requestCount ≤ rl.dailyLimit) :
    (runGuardedOps rl ops).dailyLimit = rl.dailyLimit ∧
      (runGuardedOps rl ops).requestCount ≤ (runGuardedOps rl ops).dailyLimit := by
  induction ops generalizing rl with
  | nil => exact ⟨rfl, h⟩
  | cons op t ih =>
    have hstep := applyGuardedOp_count_le rl op h
    have hlim := applyGuardedOp_dailyLimit rl op
    have hrec := ih (applyGuardedOp rl op) hstep
    refine ⟨?_, hrec.2⟩
    calc (runGuardedOps (applyGuardedOp rl op) t).dailyLimit
        = (applyGuardedOp rl op).dailyLimit := hrec.1
      _ = rl.dailyLimit := hlim

/-! ## Claim theorems -/

/-- C7: with daily_limit = 3 and no 24-hour reset elapsing, three
sequential check()+record() cycles succeed and the fourth check() fails
with a message containing the literal "3/3 requests used" and the
duration until reset ("24h0m" here); in general, absent the 24-hour
reset, check() fails exactly when request_count is at least
daily_limit. -/
theorem quota_exhaustion_c7 :
    (∀ (rl : RateLimiter) (now : ℕ),
        now - rl.lastResetTime < minutesPerDay →
        (((wait now rl).2).isSome ↔ rl.dailyLimit ≤ rl.requestCount)) ∧
    (wait 0 (newRateLimiter 3 0)).2 = none ∧
    (wait 0 (checkRecordCycle 0 (newRateLimiter 3 0))).2 = none ∧
    (wait 0 (checkRecordCycle 0 (checkRecordCycle 0
      (newRateLimiter 3 0)))).2 = none ∧
    (wait 0 (checkRecordCycle 0 (checkRecordCycle 0 (checkRecordCycle 0
      (newRateLimiter 3 0))))).2 = some (quotaMessage 3 3 24 0) ∧
    ("3/3 requests used").data <:+: (quotaMessage 3 3 24 0).data ∧
    ("24h0m").data <:+: (quotaMessage 3 3 24 0).data := by
  refine ⟨?_, by decide, by decide, by decide, ?_, by decide, by decide⟩
  · intro rl now h
    have hne : ¬ minutesPerDay ≤ now - rl.lastResetTime := Nat.not_le.mpr h
    simp only [wait, if_neg hne]
    split_ifs with hq
    · simpa using hq
    · simpa using hq
  · set_option maxRecDepth 4000 in decide

/-- C7 witness: the general part applied to the state after the three
cycles (count 3, limit 3) at minute 5, which is before any reset. -/
theorem quota_exhaustion_c7_witness :
    (5 : ℕ) - (⟨3, 3, 0⟩ : RateLimiter).lastResetTime < minutesPerDay ∧
      (((wait 5 ⟨3, 3, 0⟩).2).isSome ↔
        (⟨3, 3, 0⟩ : RateLimiter).dailyLimit ≤
          (⟨3, 3, 0⟩ : RateLimiter).requestCount) :=
  ⟨by decide, quota_exhaustion_c7.1 ⟨3, 3, 0⟩ 5 (by decide)⟩

/-- C8 counterexample: the claim quantifies over every sequence of
check(), record(), status(), reset() operations, but two bare record()
calls against a fresh gate with limit 1 drive the count to 2, where
status() clamps remaining at 0 and used + remaining = 2 exceeds the
limit 1. -/
theorem quota_status_c8_counterexample :
    ((getStatus (runQuotaOps (newRateLimiter 1 0)
        [.recordOp, .recordOp])).requestsUsed : ℤ) +
      (getStatus (runQuotaOps (newRateLimiter 1 0)
        [.recordOp, .recordOp])).requestsLeft ≠
    ((getStatus (runQuotaOps (newRateLimiter 1 0)
        [.recordOp, .recordOp])).dailyLimit : ℤ) := by
  decide

/-- C8 amended: status() always satisfies used + remaining =
max(used, limit), hence used + remaining = limit in every state with
used ≤ limit; and every state reached from a fresh gate by a sequence in
which record() only happens inside a fetch cycle whose check() succeeded
does satisfy used ≤ limit. -/
theorem quota_status_c8_amended :
    (∀ rl : RateLimiter, rl.requestCount ≤ rl.dailyLimit →
      ((getStatus rl).requestsUsed : ℤ) + (getStatus rl).requestsLeft =
        ((getStatus rl).dailyLimit : ℤ)) ∧
    (∀ rl : RateLimiter,
      ((getStatus rl).requestsUsed : ℤ) + (getStatus rl).requestsLeft =
        max ((getStatus rl).requestsUsed : ℤ)
          ((getStatus rl).dailyLimit : ℤ)) ∧
    (∀ (limit t0 : ℕ) (ops : List GuardedOp),
      (runGuardedOps (newRateLimiter limit t0) ops).requestCount ≤
        (runGuardedOps (newRateLimiter limit t0) ops).dailyLimit) := by
  refine ⟨?_, ?_, ?_⟩
  · intro rl h
    simp only [getStatus]
    omega
  · intro rl
    simp only [getStatus]
    omega
  · intro limit t0 ops
    exact (runGuardedOps_inv ops (newRateLimiter limit t0)
      (Nat.zero_le _)).2

/-- C8 amended witness: the invariant applied at a state with used 1,
limit 3, and to the guarded run of one fetch cycle from a fresh gate. -/
theorem quota_status_c8_amended_witness :
    ((⟨3, 1, 0⟩ : RateLimiter).requestCount ≤
        (⟨3, 1, 0⟩ : RateLimiter).dailyLimit ∧
      ((getStatus ⟨3, 1, 0⟩).requestsUsed : ℤ) +
          (getStatus ⟨3, 1, 0⟩).requestsLeft =
        ((getStatus ⟨3, 1, 0⟩).dailyLimit : ℤ)) ∧
    (runGuardedOps (newRateLimiter 3 0)
        [.fetchCycle 0 true]).requestCount ≤
      (runGuardedOps (newRateLimiter 3 0)
        [.fetchCycle 0 true]).dailyLimit :=
  ⟨⟨by decide, quota_status_c8_amended.1 ⟨3, 1, 0⟩ (by decide)⟩,
    quota_status_c8_amended.2.2 3 0 [.fetchCycle 0 true]⟩

/-- C9: breadth_ok(returns, min_positive) is true iff the count of
strictly positive entries is at least min_positive, except that an empty
list is always false, even for min_positive = 0. -/
theorem breadth_ok_c9 :
    (∀ (returns : List ℚ) (minPositive : ℕ),
      checkBreadthFilter returns minPositive = true ↔
        (returns ≠ [] ∧
          minPositive ≤ returns.countP (fun r => decide (0 < r)))) ∧
    (∀ minPositive : ℕ, checkBreadthFilter [] minPositive = false) := by
  constructor
  · intro returns minPositive
    cases returns with
    | nil => simp [checkBreadthFilter]
    | cons a t => simp [checkBreadthFilter]
  · intro minPositive
    rfl

/-- C10: an empty batch upsert, on the prices repository and on the
indicators repository alike, returns success without beginning a
transaction and leaves the table untouched. -/
theorem empty_batch_upsert_c10 :
    (∀ rows : List Price, priceUpsertBatch rows [] = ⟨rows, false, true⟩) ∧
    (∀ rows : List DbIndicator,
      indicatorUpsertBatch rows [] = ⟨rows, false, true⟩) :=
  ⟨fun _ => rfl, fun _ => rfl⟩

/-- C1: evaluating the refresh call trace at the failing input — a
universe of one symbol SPY whose scheduler fetch succeeds — shows the
provider client is invoked twice for SPY in one refresh (once by the
scheduler via FetchDaily, once more by the persistence loop via
FetchDailyAdjusted), contradicting the at-most-once claim. -/
theorem provider_single_call_c1_code :
    providerCallsFor [⟨"SPY", true⟩] ("SPY") = 2 ∧
    ¬ providerCallsFor [⟨"SPY", true⟩] ("SPY") ≤ 1 := by
  constructor
  · decide
  · decide

/-- C2 counterexample: a call that passes the quota check and attempts
the send but fails at the transport layer returns before record() — the
request count stays 0, so a sent-but-failed request does not count
against the quota. -/
theorem record_after_send_c2_counterexample :
    (wait 0 (newRateLimiter 25 0)).2 = none ∧
    fetchDailyAdjusted 0 (newRateLimiter 25 0) .transportFailure =
      (newRateLimiter 25 0, .error .transport) ∧
    (fetchDailyAdjusted 0 (newRateLimiter 25 0)
        .transportFailure).1.requestCount = 0 := by
  refine ⟨by decide, by decide, by decide⟩

/-- C2 amended: for calls that pass the quota check, record() runs iff
the HTTP layer returned a response: a transport-layer failure (after the
retry budget) leaves the request count unchanged, while any obtained
response — regardless of status code, decode result or in-body errors —
increments it by one. -/
theorem record_after_send_c2_amended :
    ∀ (now : ℕ) (rl : RateLimiter) (outcome : HttpOutcome),
      (wait now rl).2 = none →
      ((outcome = .transportFailure →
        (fetchDailyAdjusted now rl outcome).1.requestCount =
          (wait now rl).1.requestCount) ∧
      (∀ (status : ℕ) (decodeOk : Bool) (errorMessage note : String)
          (seriesLen : ℕ),
        outcome = .response status decodeOk errorMessage note seriesLen →
        (fetchDailyAdjusted now rl outcome).1.requestCount =
          (wait now rl).1.requestCount + 1)) := by
  intro now rl outcome hnone
  rcases hw : wait now rl with ⟨rl1, e⟩
  rw [hw] at hnone
  simp only at hnone
  subst hnone
  constructor
  · rintro rfl
    simp [fetchDailyAdjusted, hw]
  · rintro status decodeOk errorMessage note seriesLen rfl
    simp only [fetchDailyAdjusted, hw]
    split_ifs <;> simp [recordRequest]

/-- C2 amended witness: a clean 200 response against a fresh gate
increments the count by one. -/
theorem record_after_send_c2_witness :
    (wait 0 (newRateLimiter 25 0)).2 = none ∧
      (fetchDailyAdjusted 0 (newRateLimiter 25 0)
          (.response 200 true ("") ("") 5)).1.requestCount =
        (wait 0 (newRateLimiter 25 0)).1.requestCount + 1 :=
  ⟨by decide,
    (record_after_send_c2_amended 0 (newRateLimiter 25 0)
        (.response 200 true ("") ("") 5) (by decide)).2
      200 true ("") ("") 5 rfl⟩

/-- C5: on a sorted series, the return over lookback n fails when fewer
than n+1 bars are available or the adjusted close n bars back is zero,
and otherwise equals p[T]/p[T-n] - 1; the loader substitutes close for a
NULL adj_close; a lookback of exactly length-1 succeeds (for a nonzero
past price) and one of length fails. -/
theorem calculate_return_c5 :
    (∀ (prices : List PriceBar) (cur : ℚ) (n : ℕ),
      prices.length < n + 1 →
      calculateReturn prices cur n =
        .error (.insufficientData (n + 1) prices.length)) ∧
    (∀ (prices : List PriceBar) (cur : ℚ) (n : ℕ),
      n + 1 ≤ prices.length →
      pastAdjClose prices n = 0 →
      calculateReturn prices cur n = .error .zeroPastPrice) ∧
    (∀ (prices : List PriceBar) (cur : ℚ) (n : ℕ),
      n + 1 ≤ prices.length →
      pastAdjClose prices n ≠ 0 →
      calculateReturn prices cur n =
        .ok (cur / pastAdjClose prices n - 1)) ∧
    (∀ r : PriceRow, (loadPriceBar r).adjClose = r.adjClose.getD r.close) ∧
    (∀ (prices : List PriceBar) (cur : ℚ), prices ≠ [] →
      pastAdjClose prices (prices.length - 1) ≠ 0 →
      calculateReturn prices cur (prices.length - 1) =
        .ok (cur / pastAdjClose prices (prices.length - 1) - 1)) ∧
    (∀ (prices : List PriceBar) (cur : ℚ),
      calculateReturn prices cur prices.length =
        .error (.insufficientData (prices.length + 1) prices.length)) := by
  have h2 : ∀ (prices : List PriceBar) (cur : ℚ) (n : ℕ),
      n + 1 ≤ prices.length → pastAdjClose prices n = 0 →
      calculateReturn prices cur n = .error .zeroPastPrice := by
    intro prices cur n h hz
    simp only [pastAdjClose, List.getD, List.get?_eq_getElem?] at hz
    simp [calculateReturn, Nat.not_lt.mpr h, hz]
  have h3 : ∀ (prices : List PriceBar) (cur : ℚ) (n : ℕ),
      n + 1 ≤ prices.length → pastAdjClose prices n ≠ 0 →
      calculateReturn prices cur n =
        .ok (cur / pastAdjClose prices n - 1) := by
    intro prices cur n h hz
    simp only [pastAdjClose, List.getD, List.get?_eq_getElem?] at hz ⊢
    simp [calculateReturn, Nat.not_lt.mpr h, hz]
  refine ⟨?_, h2, h3, ?_, ?_, ?_⟩
  · intro prices cur n h
    simp [calculateReturn, h]
  · intro r
    rfl
  · intro prices cur hne hz
    have hpos : 0 < prices.length := List.length_pos.mpr hne
    exact h3 prices cur (prices.length - 1) (by omega) hz
  · intro prices cur
    simp [calculateReturn]

/-- C5 witness: with two bars on distinct dates, the lookback-1 return
from the boundary conjunct evaluates to the ok value. -/
theorem calculate_return_c5_witness :
    ([barDay1, barDay2] : List PriceBar) ≠ [] ∧
      pastAdjClose [barDay1, barDay2]
        (([barDay1, barDay2] : List PriceBar).length - 1) ≠ 0 ∧
      calculateReturn [barDay1, barDay2]
          (lastAdjClose [barDay1, barDay2])
          (([barDay1, barDay2] : List PriceBar).length - 1) =
        .ok (lastAdjClose [barDay1, barDay2] /
          pastAdjClose [barDay1, barDay2]
            (([barDay1, barDay2] : List PriceBar).length - 1) - 1) :=
  ⟨by decide, by decide,
    calculate_return_c5.2.2.2.2.1 [barDay1, barDay2]
      (lastAdjClose [barDay1, barDay2]) (by decide) (by decide)⟩

-- The breadth filter removes the all-negative indicator, so the scorer
-- has no survivors on this input.
theorem filter_indAllNeg_empty :
    ([indAllNeg].filter (passesFilters tieCfg)) = [] := by
  norm_num [passesFilters, tieCfg, indAllNeg, checkBreadthFilter,
    List.countP_cons, List.countP_nil]

/-- C3 counterexample: when filtering removes every indicator, the scorer
fails with the no-survivors error, ComputeAllIndicators propagates it,
and runRefresh hits log.Fatalf: even with zero fetch failures the run is
aborted — never closed with status OK — so the claim that the refresh
completes with status OK is false on the code. -/
theorem nosurvivors_c3_counterexample :
    scoreAndRank zeroFn tieCfg [indAllNeg] =
      .error ("no symbols passed filtering criteria") ∧
    runRefreshAnalyticsPhase zeroFn tieCfg [indAllNeg] 0 =
      (.aborted, []) ∧
    (RefreshOutcome.aborted ≠ .closed ("OK")) := by
  have hf := filter_indAllNeg_empty
  refine ⟨?_, ?_, by simp⟩
  · simp [scoreAndRank, hf]
  · simp [runRefreshAnalyticsPhase, computeAllIndicators, scoreAndRank, hf]

/-- C3 amended: if the scorer's filtering removes every indicator, the
scorer and ComputeAllIndicators fail, runRefresh aborts via log.Fatalf
without persisting any indicator rows, and the run is left unfinished
(never closed with status OK). -/
theorem nosurvivors_c3_amended :
    ∀ (sqrtQ : ℚ → ℚ) (cfg : ScoringConfig)
      (indicatorsList : List Indicators) (failureCount : ℕ),
      indicatorsList ≠ [] →
      indicatorsList.filter (passesFilters cfg) = [] →
      runRefreshAnalyticsPhase sqrtQ cfg indicatorsList failureCount =
        (.aborted, []) := by
  intro sqrtQ cfg il fc h1 h2
  simp [runRefreshAnalyticsPhase, computeAllIndicators, scoreAndRank,
    h1, h2]

/-- C3 amended witness: the all-negative indicator list aborts the
refresh without closing the run. -/
theorem nosurvivors_c3_witness :
    ([indAllNeg] : List Indicators) ≠ [] ∧
      ([indAllNeg].filter (passesFilters tieCfg)) = [] ∧
      runRefreshAnalyticsPhase zeroFn tieCfg [indAllNeg] 0 =
        (.aborted, []) :=
  ⟨by simp, filter_indAllNeg_empty,
    nosurvivors_c3_amended zeroFn tieCfg [indAllNeg] 0 (by simp)
      filter_indAllNeg_empty⟩

/-- C4 amended: the scorer's output assigns ranks exactly 1..N in output
order, no adjacent pair of the output is out of order under the code's
comparator (which applies the 1e-10 tie tolerance at the score, vol_6m
and adv levels; with such tolerance ties the comparator is not
transitive, so adjacent order is the guarantee the stable sort gives),
the output has one element per survivor, and in the AAA/ZZZ tie scenario
AAA gets rank 1 and ZZZ rank 2. -/
theorem scorer_rank_c4_amended :
    (∀ (sqrtQ : ℚ → ℚ) (cfg : ScoringConfig) (ind : List Indicators)
        (out : List SymbolScore),
      scoreAndRank sqrtQ cfg ind = .ok out →
      (out.map (fun s => s.indicators.rank) = List.range' 1 out.length ∧
        out.Chain' scoreLe ∧
        out.length = (ind.filter (passesFilters cfg)).length)) ∧
    (∀ sq : ℚ → ℚ, sq 0 = 0 →
      (scoreAndRank sq tieCfg [indAAA, indZZZ]).toOption.map
          (List.map (fun s => (s.symbol, s.indicators.rank))) =
        some [(("AAA" : String), 1), (("ZZZ" : String), 2)]) := by
  constructor
  · intro sqrtQ cfg ind out h
    unfold scoreAndRank at h
    by_cases h1 : ind.isEmpty
    · rw [if_pos h1] at h
      cases h
    rw [if_neg h1] at h
    by_cases h2 : (ind.filter (passesFilters cfg)).isEmpty
    · rw [if_pos h2] at h
      cases h
    rw [if_neg h2] at h
    rcases hz : zScoreNormalize sqrtQ ((ind.filter (passesFilters cfg)).map
        (fun i => computeScore i cfg.penaltyLambda)) with e | normalized
    · rw [hz] at h
      cases h
    rw [hz] at h
    cases h
    refine ⟨?_, ?_, ?_⟩
    · rw [assignRanks_map_rank, assignRanks_length]
    · exact chain'_assignRanks 1 _
        (chain'_insertionSort scoreLe scoreLe_total _)
    · rw [assignRanks_length,
        (List.perm_insertionSort scoreLe _).length_eq]
      unfold buildSymbolScores
      rw [List.length_zipWith, zScoreNormalize_length sqrtQ _ _ hz,
        List.length_map]
      exact min_self _
  · intro sq hsq
    norm_num [scoreAndRank, passesFilters, tieCfg, indAAA, indZZZ,
      checkBreadthFilter, computeScore, zScoreNormalize, listMean,
      listPopVariance, hsq, buildSymbolScores, List.insertionSort,
      List.orderedInsert, scoreLe, compareSymbolScores, mathAbs, epsTie,
      goStringLt, lexLt, assignRanks, List.countP_cons, List.countP_nil]
    exact ⟨_, rfl, rfl⟩

-- Concrete evaluation of the scorer on the AAA/ZZZ tie pair.
theorem scoreAndRank_tie_eval :
    scoreAndRank zeroFn tieCfg [indAAA, indZZZ] = .ok c4OutVal := by
  norm_num [scoreAndRank, passesFilters, tieCfg, indAAA, indZZZ, zeroFn,
    checkBreadthFilter, computeScore, zScoreNormalize, listMean,
    listPopVariance, buildSymbolScores, List.insertionSort,
    List.orderedInsert, scoreLe, compareSymbolScores, mathAbs, epsTie,
    goStringLt, lexLt, assignRanks, List.countP_cons, List.countP_nil,
    c4OutVal]

/-- C4 amended witness: the general part applied to the AAA/ZZZ run,
whose output is c4OutVal, and the scenario part applied to the zero
function. -/
theorem scorer_rank_c4_witness :
    (scoreAndRank zeroFn tieCfg [indAAA, indZZZ] = .ok c4OutVal ∧
      (c4OutVal.map (fun s => s.indicators.rank) =
          List.range' 1 c4OutVal.length ∧
        c4OutVal.Chain' scoreLe ∧
        c4OutVal.length =
          ([indAAA, indZZZ].filter (passesFilters tieCfg)).length)) ∧
    (scoreAndRank zeroFn tieCfg [indAAA, indZZZ]).toOption.map
        (List.map (fun s => (s.symbol, s.indicators.rank))) =
      some [(("AAA" : String), 1), (("ZZZ" : String), 2)] :=
  ⟨⟨scoreAndRank_tie_eval,
      scorer_rank_c4_amended.1 zeroFn tieCfg [indAAA, indZZZ] c4OutVal
        scoreAndRank_tie_eval⟩,
    scorer_rank_c4_amended.2 zeroFn rfl⟩

/-- C4 counterexample: with two survivors tied in normalized score whose
vol_6m values differ by 1e-11 (inside the tolerance the code also
applies at the vol level) and whose adv differ widely, the code ranks
the higher-adv symbol BBB first, while the claim's comparator chain —
tolerance at the score level only, exact comparison on vol_6m — puts
the lower-vol symbol AAA first; so the output is not sorted by the
claim's comparator. -/
theorem scorer_rank_c4_counterexample :
    (scoreAndRank zeroFn tieCfg [indLowVol, indHighAdv]).toOption.map
        (List.map (fun s => (s.symbol, s.indicators.rank))) =
      some [(("BBB" : String), 1), (("AAA" : String), 2)] ∧
    (scoreAndRankSpec zeroFn tieCfg [indLowVol, indHighAdv]).toOption.map
        (List.map (fun s => (s.symbol, s.indicators.rank))) =
      some [(("AAA" : String), 1), (("BBB" : String), 2)] ∧
    scoreAndRank zeroFn tieCfg [indLowVol, indHighAdv] ≠
      scoreAndRankSpec zeroFn tieCfg [indLowVol, indHighAdv] := by
  have e1 : (scoreAndRank zeroFn tieCfg [indLowVol, indHighAdv]).toOption.map
      (List.map (fun s => (s.symbol, s.indicators.rank))) =
      some [(("BBB" : String), 1), (("AAA" : String), 2)] := by
    norm_num [scoreAndRank, passesFilters, tieCfg, indLowVol, indHighAdv,
      zeroFn, checkBreadthFilter, computeScore, zScoreNormalize, listMean,
      listPopVariance, buildSymbolScores, List.insertionSort,
      List.orderedInsert, scoreLe, compareSymbolScores, mathAbs, epsTie,
      goStringLt, lexLt, assignRanks, List.countP_cons, List.countP_nil]
    exact ⟨_, rfl, rfl⟩
  have e2 : (scoreAndRankSpec zeroFn tieCfg [indLowVol, indHighAdv]).toOption.map
      (List.map (fun s => (s.symbol, s.indicators.rank))) =
      some [(("AAA" : String), 1), (("BBB" : String), 2)] := by
    norm_num [scoreAndRankSpec, passesFilters, tieCfg, indLowVol, indHighAdv,
      zeroFn, checkBreadthFilter, computeScore, zScoreNormalize, listMean,
      listPopVariance, buildSymbolScores, List.insertionSort,
      List.orderedInsert, scoreLeSpec, compareSymbolScoresSpec, mathAbs,
      epsTie, goStringLt, lexLt, assignRanks, List.countP_cons,
      List.countP_nil]
    exact ⟨_, rfl, rfl⟩
  refine ⟨e1, e2, ?_⟩
  intro heq
  rw [heq, e2] at e1
  simp at e1

-- Two permutations of one bar list with pairwise-distinct dates sort to
-- the same list: the sorted order is unique.
theorem sortByDate_eq_of_perm {l l' : List PriceBar} (h : l.Perm l')
    (hnd : (l.map (fun p => p.date)).Nodup) :
    sortByDate l = sortByDate l' := by
  have hperm : (sortByDate l).Perm (sortByDate l') :=
    (List.perm_insertionSort dateLe l).trans
      (h.trans (List.perm_insertionSort dateLe l').symm)
  have sortedLt : ∀ m : List PriceBar, m.Perm l →
      List.Sorted dateLt (sortByDate m) := by
    intro m hm
    have hs : List.Sorted dateLe (sortByDate m) :=
      List.sorted_insertionSort dateLe m
    have hndm : ((sortByDate m).map (fun p => p.date)).Nodup := by
      refine (List.Perm.nodup_iff ?_).mpr hnd
      exact ((List.perm_insertionSort dateLe m).trans hm).map _
    have hne : List.Pairwise (fun a b : PriceBar => a.date ≠ b.date)
        (sortByDate m) := List.pairwise_map.mp hndm
    exact (hs.and hne).imp fun hab =>
      lt_of_le_of_ne hab.1 hab.2
  exact List.eq_of_perm_of_sorted hperm
    (sortedLt l (List.Perm.refl l)) (sortedLt l' h.symm)

/-- C6 counterexample: with a duplicated date the calculator keeps both
bars (no last-writer-wins), so the last element of the sorted series —
and with it the computed return — depends on the input order: the
permuted two-bar series with equal dates yields r_1m = 1 in one order
and r_1m = -1/2 in the other. -/
theorem calculator_determinism_c6_counterexample :
    ([barDup100, barDup200] : List PriceBar).Perm [barDup200, barDup100] ∧
    (computeIndicators zeroFn zeroFn lbOne vwOne ("X")
        [barDup100, barDup200]).toOption.map (fun i => i.r1m) = some 1 ∧
    (computeIndicators zeroFn zeroFn lbOne vwOne ("X")
        [barDup200, barDup100]).toOption.map (fun i => i.r1m) =
      some (-(1/2)) ∧
    computeIndicators zeroFn zeroFn lbOne vwOne ("X")
        [barDup100, barDup200] ≠
      computeIndicators zeroFn zeroFn lbOne vwOne ("X")
        [barDup200, barDup100] := by
  have e1 : (computeIndicators zeroFn zeroFn lbOne vwOne ("X")
      [barDup100, barDup200]).toOption.map (fun i => i.r1m) = some 1 := by
    norm_num [computeIndicators, computeIndicatorsSorted, sortByDate,
      List.insertionSort, List.orderedInsert, dateLe, calculateReturns,
      calculateReturn, calculateVolatility, calculateADV, dailyLogReturns,
      listMean, listPopVariance, zeroFn, lbOne, vwOne, barDup100,
      barDup200, dummyBar, Except.bind, Except.pure, bind, pure]
    exact ⟨_, rfl, rfl⟩
  have e2 : (computeIndicators zeroFn zeroFn lbOne vwOne ("X")
      [barDup200, barDup100]).toOption.map (fun i => i.r1m) =
      some (-(1/2)) := by
    norm_num [computeIndicators, computeIndicatorsSorted, sortByDate,
      List.insertionSort, List.orderedInsert, dateLe, calculateReturns,
      calculateReturn, calculateVolatility, calculateADV, dailyLogReturns,
      listMean, listPopVariance, zeroFn, lbOne, vwOne, barDup100,
      barDup200, dummyBar, Except.bind, Except.pure, bind, pure]
    exact ⟨_, rfl, rfl⟩
  refine ⟨List.Perm.swap barDup200 barDup100 [], e1, e2, ?_⟩
  intro heq
  rw [heq, e2] at e1
  norm_num at e1

/-- C6 amended: the calculator is permutation-invariant whenever the
series has pairwise-distinct dates; with duplicate dates the code keeps
every bar (there is no last-writer-wins dedup) and the output can depend
on the input order. -/
theorem calculator_determinism_c6_amended :
    ∀ (logQ sqrtQ : ℚ → ℚ) (lb : Lookbacks) (vw : VolWindows)
      (sym : String) (l l' : List PriceBar),
      l.Perm l' →
      (l.map (fun p => p.date)).Nodup →
      computeIndicators logQ sqrtQ lb vw sym l =
        computeIndicators logQ sqrtQ lb vw sym l' := by
  intro logQ sqrtQ lb vw sym l l' hperm hnd
  have hlen := hperm.length_eq
  have hsort := sortByDate_eq_of_perm hperm hnd
  unfold computeIndicators
  rw [hlen, hsort]

/-- C6 amended witness: the two-bar distinct-date series and its
reversal produce the same indicator row. -/
theorem calculator_determinism_c6_witness :
    ([barDay1, barDay2] : List PriceBar).Perm [barDay2, barDay1] ∧
      (([barDay1, barDay2] : List PriceBar).map (fun p => p.date)).Nodup ∧
      computeIndicators zeroFn zeroFn lbOne vwOne ("X")
          [barDay1, barDay2] =
        computeIndicators zeroFn zeroFn lbOne vwOne ("X")
          [barDay2, barDay1] :=
  ⟨List.Perm.swap barDay2 barDay1 [], by decide,
    calculator_determinism_c6_amended zeroFn zeroFn lbOne vwOne ("X")
      [barDay1, barDay2] [barDay2, barDay1]
      (List.Perm.swap barDay2 barDay1 []) (by decide)⟩

end Momo